import Mathlib

/-!
Shallow embedding of the py-async-await-actions repository (Python 3):
the action lifecycle contract (`action.py`), the sequential composite
(`sequence_action.py`), the parallel composite (`set_action.py`), the
wrapper (`action_list.py`) and the leaf actions (`bomb_actions.py`).

Composites are polymorphic over their children (Python duck typing); we
drive them with a small deep-embedded family of client actions (`Act`)
covering timers (like `wait_action`), immediately-over actions (like
`callback_action` or the base class), and actions whose `end()`
re-entrantly calls `add_action` on the owning composite.

Observable behaviour is recorded as a trace of lifecycle events, and
Python exceptions are modelled explicitly: a call returns its mutated
state together with an optional raised error (mutations made before the
raise survive, as in Python).
-/

/-- The Python exceptions this code can raise. -/
inductive PyError where
  | indexError
  | attributeError
  | nameError
  | typeError
deriving DecidableEq, Repr

/-- Observable lifecycle events on child actions, tagged by the child's id. -/
inductive Ev where
  | started (id : Nat)
  | updated (id : Nat) (dt : Int)
  | ended (id : Nat)
deriving DecidableEq, Repr

/-- Behaviours of the client actions used to drive the composites:
`timer cur dur` mirrors `wait_action` (update adds `dt` to `cur`, over when
`cur ≥ dur`, start resets `cur` to 0); `instant` mirrors the base class and
`callback_action` (always over, no state); `spawner cid cbeh` is always over
and its `end()` calls `add_action ⟨cid, cbeh⟩` on the owning sequential
composite (the re-entrancy case the code's comments discuss). -/
inductive Beh where
  | timer (cur : Int) (dur : Int)
  | instant
  | spawner (cid : Nat) (cbeh : Beh)
deriving DecidableEq, Repr

/-- A client action: an identity tag plus a behaviour. -/
structure Act where
  id : Nat
  beh : Beh
deriving DecidableEq, Repr

/-- `is_over` of a client action (for a timer, `current_time >= end_time`). -/
def Beh.isOver : Beh → Bool
  | .timer cur dur => decide (dur ≤ cur)
  | .instant => true
  | .spawner _ _ => true

/-- `update(dt)` of a client action (for a timer, `current_time += dt`). -/
def Beh.updateB (dt : Int) : Beh → Beh
  | .timer cur dur => .timer (cur + dt) dur
  | b => b

/-- `start()` of a client action (for a timer, reset `current_time` to 0,
exactly as `wait_action.start` does). -/
def Beh.startB : Beh → Beh
  | .timer _ dur => .timer 0 dur
  | b => b

def Act.isOver (a : Act) : Bool := a.beh.isOver

def Act.updateA (a : Act) (dt : Int) : Act := { a with beh := a.beh.updateB dt }

def Act.startA (a : Act) : Act := { a with beh := a.beh.startB }

/-! ## sequence_action.py -/

/-- `sequence_action.add_action(action)` on a queue `qs` (front first):
`self.actions.append(action)`, then `if len(self.actions) == 1:
self.action.start()`.  The instance has no attribute `action` (the deque is
`self.actions` and the parameter is a local), so in the length-1 case Python
raises `AttributeError` after the append has already happened. -/
def sequence_action_add_action (qs : List Act) (a : Act) :
    List Act × List Ev × Option PyError :=
  let qs1 := qs ++ [a]
  if qs1.length = 1 then (qs1, [], some .attributeError)
  else (qs1, [], none)

/-- `front.end()` for a client action, given the composite's queue after the
pop: a spawner's `end()` calls `add_action` on the owning composite, every
other behaviour's `end()` does nothing.  Returns the queue after the call,
the events it emitted (the `ended` mark first), and any raised error. -/
def actEndCall (a : Act) (qs : List Act) :
    List Act × List Ev × Option PyError :=
  match a.beh with
  | .spawner cid cbeh =>
    match sequence_action_add_action qs ⟨cid, cbeh⟩ with
    | (qs1, evs, e) => (qs1, Ev.ended a.id :: evs, e)
  | _ => (qs, [Ev.ended a.id], none)

/-- Result of one `sequence_action.update` call: final queue, event trace,
raised error if any. -/
structure SeqOut where
  actions : List Act
  trace : List Ev
  err : Option PyError
deriving DecidableEq, Repr

/-- The `while True` loop body of `sequence_action.update`, with the
invariant that the deque is `front :: rest`.  `fuel` bounds the number of
iterations (each iteration pops one element, but an `end()` may append); the
result is `none` only when fuel runs out. -/
def sequence_update_loop (dt : Int) :
    Nat → Act → List Act → List Ev → Option SeqOut
  | 0, _, _, _ => none
  | fuel + 1, front, rest, tr =>
    if front.isOver then
      -- popleft, then front.end()
      match actEndCall front rest with
      | (qs1, evs, some e) => some ⟨qs1, tr ++ evs, some e⟩
      | (qs1, evs, none) =>
        match qs1 with
        | [] => some ⟨[], tr ++ evs, none⟩
        | f :: r =>
          -- front = self.actions[0]; front.start()
          sequence_update_loop dt fuel f.startA r
            (tr ++ evs ++ [Ev.started f.id])
    else
      -- front.update(dt), then re-check is_over
      let front1 := front.updateA dt
      let tr1 := tr ++ [Ev.updated front.id dt]
      if front1.isOver then
        match actEndCall front1 rest with
        | (qs1, evs, some e) => some ⟨qs1, tr1 ++ evs, some e⟩
        | (qs1, evs, none) =>
          match qs1 with
          | [] => some ⟨[], tr1 ++ evs, none⟩
          | f :: r =>
            sequence_update_loop dt fuel f.startA r
              (tr1 ++ evs ++ [Ev.started f.id])
      else
        some ⟨front1 :: rest, tr1, none⟩

/-- `sequence_action.update(dt)`: the body begins with
`front = self.actions[0]`, which on an empty deque raises `IndexError`
before anything else happens; otherwise the `while True` loop runs. -/
def sequence_action_update (dt : Int) (fuel : Nat) (qs : List Act) :
    Option SeqOut :=
  match qs with
  | [] => some ⟨[], [], some .indexError⟩
  | f :: r => sequence_update_loop dt fuel f r []

/-- `sequence_action.is_over()`: `len(self.actions) == 0`. -/
def sequence_action_is_over (qs : List Act) : Bool := qs.length = 0

/-! ## set_action.py -/

/-- The runtime value of `set_action.self.actions`.  It starts as a Python
list, but `update` rebinds it to `filter(check_continue_and_end,
self.actions)` — in Python 3 a lazy iterator, which the `for` loop in the
same call then exhausts.  `consumedFilter` is that exhausted filter
object. -/
inductive ActsField where
  | pylist (l : List Act)
  | consumedFilter
deriving DecidableEq, Repr

/-- State of a `set_action`: the `actions` field and the `started` flag. -/
structure SetState where
  actions : ActsField
  started : Bool
deriving DecidableEq, Repr

/-- `set_action.__init__`: empty list, flag unset. -/
def set_action_init : SetState := ⟨.pylist [], false⟩

/-- `check_continue_and_end(action)`: if the action is over, end it and
return `False`; otherwise return `True`.  Also reports the events the call
emits. -/
def check_continue_and_end (a : Act) : Bool × List Ev :=
  if a.isOver then (false, [Ev.ended a.id]) else (true, [])

/-- The `for action in self.actions: action.update(dt)` loop of
`set_action.update`, where `self.actions` is the *lazy* Python 3 filter
over the old list: the predicate `check_continue_and_end` runs on each
element only when the loop asks for the next item, so ends and updates
interleave in list order. -/
def filterLoop (dt : Int) : List Act → List Ev
  | [] => []
  | a :: rest =>
    match check_continue_and_end a with
    | (false, evs) => evs ++ filterLoop dt rest
    | (true, evs) => evs ++ Ev.updated a.id dt :: filterLoop dt rest

/-- `set_action.update(dt)`: `self.actions = filter(check_continue_and_end,
self.actions)` followed by the `for` loop.  In Python 3 the filter is lazy;
after the loop `self.actions` is an exhausted iterator (its elements are no
longer reachable through the field).  Iterating an already-consumed filter
yields nothing. -/
def set_action_update (dt : Int) (s : SetState) :
    SetState × List Ev × Option PyError :=
  match s.actions with
  | .pylist l => (⟨.consumedFilter, s.started⟩, filterLoop dt l, none)
  | .consumedFilter => (⟨.consumedFilter, s.started⟩, [], none)

/-- `set_action.is_over()`: `len(self.actions) == 0`.  After an `update`
call `self.actions` is a filter object, which has no `len()`: Python raises
`TypeError`. -/
def set_action_is_over (s : SetState) : Except PyError Bool :=
  match s.actions with
  | .pylist l => .ok (decide (l.length = 0))
  | .consumedFilter => .error .typeError

/-- `set_action.start()`: start every held child, then set `started`.
Iterating an exhausted filter starts nothing. -/
def set_action_start (s : SetState) : SetState × List Ev × Option PyError :=
  match s.actions with
  | .pylist l =>
    (⟨.pylist (l.map Act.startA), true⟩, l.map (fun a => Ev.started a.id), none)
  | .consumedFilter => (⟨.consumedFilter, true⟩, [], none)

/-- `set_action.add_action(action)`: `self.actions.append(action)` then, if
`self.started`, `action.start()`.  A filter object has no `append`, so after
an `update` call this raises `AttributeError`. -/
def set_action_add_action (s : SetState) (a : Act) :
    SetState × List Ev × Option PyError :=
  match s.actions with
  | .pylist l =>
    if s.started then
      (⟨.pylist (l ++ [a.startA]), true⟩, [Ev.started a.id], none)
    else (⟨.pylist (l ++ [a]), false⟩, [], none)
  | .consumedFilter => (s, [], some .attributeError)

/-- Run a list of `add_action` calls in order, stopping at the first raised
error (as sequential Python statements would). -/
def runAdds : SetState → List Act → SetState × List Ev × Option PyError
  | s, [] => (s, [], none)
  | s, a :: rest =>
    match set_action_add_action s a with
    | (s1, evs, some e) => (s1, evs, some e)
    | (s1, evs, none) =>
      match runAdds s1 rest with
      | (s2, evs2, e2) => (s2, evs ++ evs2, e2)

/-- A client run of a parallel composite: construct it, add the `pre`
children, call the composite's `start()`, then add the `post` children. -/
def runPhases (pre post : List Act) : SetState × List Ev × Option PyError :=
  match runAdds set_action_init pre with
  | (s1, t1, some e) => (s1, t1, some e)
  | (s1, t1, none) =>
    match set_action_start s1 with
    | (s2, t2, some e) => (s2, t1 ++ t2, some e)
    | (s2, t2, none) =>
      match runAdds s2 post with
      | (s3, t3, e3) => (s3, t1 ++ t2 ++ t3, e3)

/-! ## action_list.py -/

/-- A Python-level call of the bound method `sequence_action.update`, whose
signature is `(self, dt)`: the argument list must supply exactly `dt`,
otherwise Python raises `TypeError` before the body runs. -/
def sequence_update_pycall (fuel : Nat) (args : List Int) (qs : List Act) :
    Option SeqOut :=
  match args with
  | [dt] => sequence_action_update dt fuel qs
  | _ => some ⟨qs, [], some .typeError⟩

/-- `action_list.update(dt)`: `if not self.sequence.is_over():
self.sequence.update()` — note the source passes *no* argument to the inner
update. -/
def action_list_update (dt : Int) (fuel : Nat) (qs : List Act) :
    Option SeqOut :=
  if sequence_action_is_over qs then some ⟨qs, [], none⟩
  else sequence_update_pycall fuel [] qs

/-- What §4.4 of the spec describes for the wrapper: forward the same `dt`
to the inner sequential composite's update.  Modelled from the spec for the
refinement comparison of the wrapper claim. -/
def action_list_update_specModel (dt : Int) (fuel : Nat) (qs : List Act) :
    Option SeqOut :=
  if sequence_action_is_over qs then some ⟨qs, [], none⟩
  else sequence_update_pycall fuel [dt] qs

/-! ## bomb_actions.py and action.py -/

/-- State a successfully constructed `wait_action` would carry. -/
structure WaitState where
  current_time : Int
  end_time : Int
deriving DecidableEq, Repr

/-- Look a name up in a scope (innermost binding wins). -/
def lookupVar : List (String × Int) → String → Option Int
  | [], _ => none
  | (k, v) :: rest, n => if k = n then some v else lookupVar rest n

/-- The names bound to values in the body of `wait_action.__init__(self,
time)`: only the parameter `time` (the enclosing module's globals bind only
the three class names, no `end_time` anywhere). -/
def wait_action_init_scope (time : Int) : List (String × Int) := [("time", time)]

/-- `wait_action.__init__(self, time)`: `self.current_time, self.end_time =
0, end_time`.  The right-hand side evaluates the name `end_time`, which is
unbound, so Python raises `NameError` before assigning anything. -/
def wait_action_init (time : Int) : Except PyError WaitState :=
  match lookupVar (wait_action_init_scope time) "end_time" with
  | none => .error .nameError
  | some v => .ok ⟨0, v⟩

/-- Base class `action.start`: `pass`. -/
def action_start {σ : Type} (s : σ) : σ := s

/-- Base class `action.update`: `pass`. -/
def action_update {σ : Type} (s : σ) (dt : Int) : σ := s

/-- Base class `action.end`: `pass`. -/
def action_end {σ : Type} (s : σ) : σ := s

/-- Base class `action.is_over`: `return True`. -/
def action_is_over {σ : Type} (s : σ) : Bool := true

/-- Base class `action.result`: `return None`. -/
def action_result {σ : Type} (s : σ) : Option Unit := none

/-! ## Helper lemmas -/

/-- Adding children to a not-yet-started parallel composite only appends:
no child is started and nothing is raised. -/
theorem runAdds_unstarted (pre : List Act) :
    ∀ l : List Act, runAdds ⟨.pylist l, false⟩ pre =
      (⟨.pylist (l ++ pre), false⟩, [], none) := by
  induction pre with
  | nil => intro l; simp [runAdds]
  | cons a rest ih =>
    intro l
    simp [runAdds, set_action_add_action, ih (l ++ [a])]

/-- Adding children to an already-started parallel composite appends the
started child and emits exactly one `started` event per addition. -/
theorem runAdds_started (post : List Act) :
    ∀ l : List Act, runAdds ⟨.pylist l, true⟩ post =
      (⟨.pylist (l ++ post.map Act.startA), true⟩,
        post.map (fun a => Ev.started a.id), none) := by
  induction post with
  | nil => intro l; simp [runAdds]
  | cons a rest ih =>
    intro l
    simp [runAdds, set_action_add_action, ih (l ++ [a.startA])]

/-- The add-start-add client run of a parallel composite emits exactly the
`started` events of the children, in addition order, and raises nothing. -/
theorem runPhases_trace (pre post : List Act) :
    runPhases pre post =
      (⟨.pylist (pre.map Act.startA ++ post.map Act.startA), true⟩,
        (pre ++ post).map (fun a => Ev.started a.id), none) := by
  simp [runPhases, set_action_init, runAdds_unstarted, set_action_start,
    runAdds_started]

/-! ## Claims -/

/-- Claim C9: for every duration argument, constructing a `wait_action`
raises `NameError`, because `__init__` reads the unbound name `end_time`
instead of its parameter `time`; the leaf can never be instantiated through
its public constructor. -/
theorem wait_action_init_raises_nameError (time : Int) :
    wait_action_init time = Except.error PyError.nameError := rfl

/-- Claim C10: the base-class defaults make `is_over` unconditionally true
and `result` unconditionally `None`, while `start`, `update` and `end` are
state-preserving no-ops; hence an action with the default `is_over` is over
immediately after `start`, before ever receiving a `dt`. -/
theorem action_base_defaults {σ : Type} (s : σ) (dt : Int) :
    action_start s = s ∧ action_update s dt = s ∧ action_end s = s ∧
      action_is_over s = true ∧ action_result s = none ∧
      action_is_over (action_start s) = true :=
  ⟨rfl, rfl, rfl, rfl, rfl, rfl⟩

/-- Claim C4 counterexample: calling `update(5)` on an empty sequential
composite is not a defined no-op — the first statement
`front = self.actions[0]` raises `IndexError`. -/
theorem sequence_update_empty_cex :
    sequence_action_update 5 3 [] =
        some ⟨[], [], some PyError.indexError⟩ ∧
      some PyError.indexError ≠ (none : Option PyError) := by
  exact ⟨rfl, by decide⟩

/-- Claim C4 as amended: calling `update(dt)` on a sequential composite
whose queue is empty raises `IndexError` (from indexing the empty deque),
leaving the queue empty and performing no lifecycle calls. -/
theorem sequence_update_empty_raises_indexError (dt : Int) (fuel : Nat) :
    sequence_action_update dt fuel [] =
      some ⟨[], [], some PyError.indexError⟩ := rfl

/-- Claim C2 failing run: a sequential composite holding a single action
whose `end()` re-entrantly calls `add_action`.  The pop does happen before
`end()` (the queue `add_action` sees is empty, which is why the length-1
branch fires), but that branch executes `self.action.start()` — a
nonexistent attribute — so the call raises `AttributeError` and the newly
added action is left appended but never started. -/
theorem sequence_reentrant_add_raises :
    sequence_action_update 3 5 [⟨0, Beh.spawner 1 Beh.instant⟩] =
      some ⟨[⟨1, Beh.instant⟩], [Ev.ended 0],
        some PyError.attributeError⟩ := rfl

/-- Claim C5 failing run: `add_action` on an empty sequential composite
appends the action and then, in the very branch whose comment says the new
sole element should be started now, evaluates `self.action` — an attribute
that does not exist (`self.actions` is the deque, `action` the parameter) —
raising `AttributeError` instead of starting the action. -/
theorem sequence_add_action_first_raises :
    sequence_action_add_action [] ⟨0, Beh.instant⟩ =
      ([⟨0, Beh.instant⟩], [], some PyError.attributeError) := rfl

/-- Claim C3 failing run: in Python 3 `filter` is lazy, so
`check_continue_and_end` runs interleaved with the `for` body instead of as
a first phase.  With a not-over child (id 1) ahead of a finished child
(id 2), the code updates child 1 *before* ending child 2, and afterwards
`self.actions` is a consumed iterator rather than the survivor list. -/
theorem set_update_interleaves_end_and_update :
    set_action_update 1 ⟨.pylist [⟨1, Beh.timer 0 5⟩, ⟨2, Beh.instant⟩], true⟩ =
      (⟨.consumedFilter, true⟩, [Ev.updated 1 1, Ev.ended 2], none) := rfl

/-- Claim C6 failing run: after a single `update` call (here on a composite
with no children at all), `self.actions` is the consumed filter object, so
`is_over()`'s `len(self.actions)` raises `TypeError` instead of returning
a boolean. -/
theorem set_is_over_after_update_raises :
    set_action_is_over (set_action_update 0 set_action_init).1 =
      Except.error PyError.typeError := rfl

/-- Claim C8 failing run: the wrapper's `update(dt)` checks `is_over` but
then calls `self.sequence.update()` with no argument; for a non-empty queue
Python raises `TypeError` (missing positional argument `dt`), whereas the
spec-described wrapper would forward `dt` and advance the front timer. -/
theorem action_list_update_drops_dt :
    action_list_update 1 10 [⟨0, Beh.timer 0 5⟩] =
        some ⟨[⟨0, Beh.timer 0 5⟩], [], some PyError.typeError⟩ ∧
      action_list_update_specModel 1 10 [⟨0, Beh.timer 0 5⟩] =
        some ⟨[⟨0, Beh.timer 1 5⟩], [Ev.updated 0 1], none⟩ := by
  exact ⟨rfl, rfl⟩

/-- Claim C1 counterexample: the spec's own scenario — A = timer of
duration 1, B instant, C = timer of duration 5, one `update(1)` call.  A
consumes the `dt`, finishes and is ended; B drains; C is started *and then
also receives `update(1)`*, so its timer advances to 1 instead of staying
at 0 as the claim requires. -/
theorem sequence_update_dt_not_consumed_cex :
    sequence_action_update 1 5
        [⟨0, Beh.timer 0 1⟩, ⟨1, Beh.instant⟩, ⟨2, Beh.timer 0 5⟩] =
      some ⟨[⟨2, Beh.timer 1 5⟩],
        [Ev.updated 0 1, Ev.ended 0, Ev.started 1, Ev.ended 1,
          Ev.started 2, Ev.updated 2 1], none⟩ ∧
      Beh.timer 1 5 ≠ Beh.timer 0 5 := by
  exact ⟨rfl, by decide⟩

/-- Claim C1 as amended: `dt` is not consumed by the first not-over child.
When the front timer (positive duration `dur1 ≤ dt`) finishes during its
update, its successor is popped-in, started, and — if still not over —
*also* updated with the full `dt`: every not-over child encountered in the
same call receives the whole `dt`, so a successor timer ends the call at
time `dt`, not 0. -/
theorem sequence_update_dt_reused_by_successor (dt dur1 dur2 : Int)
    (i j : Nat) (h1 : 0 < dur1) (h2 : dur1 ≤ dt) (h3 : dt < dur2) :
    sequence_action_update dt 2 [⟨i, Beh.timer 0 dur1⟩, ⟨j, Beh.timer 0 dur2⟩] =
      some ⟨[⟨j, Beh.timer dt dur2⟩],
        [Ev.updated i dt, Ev.ended i, Ev.started j, Ev.updated j dt],
        none⟩ := by
  have e1 : Act.isOver ⟨i, Beh.timer 0 dur1⟩ = false := by
    simp [Act.isOver, Beh.isOver]; omega
  have e2 : Act.isOver ⟨i, Beh.timer dt dur1⟩ = true := by
    simp [Act.isOver, Beh.isOver]; omega
  have e3 : Act.isOver ⟨j, Beh.timer 0 dur2⟩ = false := by
    simp [Act.isOver, Beh.isOver]; omega
  have e4 : Act.isOver ⟨j, Beh.timer dt dur2⟩ = false := by
    simp [Act.isOver, Beh.isOver]; omega
  simp [sequence_action_update, sequence_update_loop, e1, e2, e3, e4,
    actEndCall, Act.updateA, Beh.updateB, Act.startA, Beh.startB]

/-- Claim C1 amended-theorem witness at `dt = 1`, durations 1 and 5. -/
theorem sequence_update_dt_reused_witness :
    sequence_action_update 1 2 [⟨0, Beh.timer 0 1⟩, ⟨1, Beh.timer 0 5⟩] =
      some ⟨[⟨1, Beh.timer 1 5⟩],
        [Ev.updated 0 1, Ev.ended 0, Ev.started 1, Ev.updated 1 1],
        none⟩ :=
  sequence_update_dt_reused_by_successor 1 1 5 0 1 (by decide) (by decide)
    (by decide)

/-- Claim C7: over a run that adds children, calls the parallel composite's
`start()`, then adds more children, every child whose id is unique in the
run receives exactly one `started` event — pre-start additions are started
only by the composite's `start()`, post-start additions are started exactly
at addition time — and nothing is raised. -/
theorem set_action_start_exactly_once (pre post : List Act)
    (hn : ((pre ++ post).map Act.id).Nodup) (a : Act)
    (ha : a ∈ pre ++ post) :
    ((runPhases pre post).2.1).count (Ev.started a.id) = 1 ∧
      (runPhases pre post).2.2 = none := by
  rw [runPhases_trace]
  refine ⟨?_, rfl⟩
  have hmap : (pre ++ post).map (fun b => Ev.started b.id) =
      ((pre ++ post).map Act.id).map Ev.started := by
    rw [List.map_map]
    rfl
  have hinj : Function.Injective Ev.started := by
    intro x y hxy
    cases hxy
    rfl
  have hcount : (((pre ++ post).map Act.id).map Ev.started).count
      (Ev.started a.id) = ((pre ++ post).map Act.id).count a.id :=
    List.count_map_of_injective _ Ev.started hinj a.id
  simp only [hmap, hcount]
  exact List.count_eq_one_of_mem hn (List.mem_map_of_mem Act.id ha)

/-- Claim C7 witness: one child added before `start()`, one after, distinct
ids; the pre-start child is started exactly once. -/
theorem set_action_start_exactly_once_witness :
    ((runPhases [⟨0, Beh.instant⟩] [⟨1, Beh.timer 0 2⟩]).2.1).count
        (Ev.started 0) = 1 ∧
      (runPhases [⟨0, Beh.instant⟩] [⟨1, Beh.timer 0 2⟩]).2.2 = none :=
  set_action_start_exactly_once [⟨0, Beh.instant⟩] [⟨1, Beh.timer 0 2⟩]
    (by decide) ⟨0, Beh.instant⟩ (by decide)
